import Mathlib

/-!
Verification of the CRM query-orchestration engine
(`MCP/app/agents/tools/crm_tools.py` and `MCP/app/agents/mcp_agent.py`).

Python strings are modelled as `List Char`, numbers as `Int`/`ℚ`
(CPython floats are modelled as exact rationals; every concrete value
appearing in the claims is exactly representable), dicts as ordered
association lists with unique keys, and wall-clock time as `ℚ`.
-/

namespace MCP

/-- A Python string, modelled as its list of characters. -/
abbrev PyS := List Char

/-- Python `str.lower()` (ASCII, as `Char.toLower`). -/
def lowerS (s : PyS) : PyS := s.map Char.toLower

/-- Python `str.strip()`: drop leading and trailing whitespace. -/
def trimS (s : PyS) : PyS :=
  ((s.dropWhile Char.isWhitespace).reverse.dropWhile Char.isWhitespace).reverse

/-- Python substring test `needle in hay`. -/
def contains_sub (hay needle : PyS) : Bool :=
  match hay with
  | [] => needle.isEmpty
  | _ :: t => needle.isPrefixOf hay || contains_sub t needle

/-- A scalar Python value as it occurs in records and filter maps:
a string, an int (floats with integral value behave identically in the
modelled code paths), or `None`. -/
inductive Scalar where
  | str (s : PyS)
  | int (n : Int)
  | none
deriving DecidableEq

/-- Python `str(v)` on a scalar. -/
def pyStr : Scalar → PyS
  | .str s => s
  | .int n => (toString n).data
  | .none => "None".data

/-- Python truthiness of a scalar (`bool(v)`). -/
def pyTruthy : Scalar → Bool
  | .str s => !s.isEmpty
  | .int n => n != 0
  | .none => false

/-- A value inside a criteria dict (the `"operator"`/`"value"`/`"start"`/`"end"`
slots of an operator object): a scalar or a list of scalars. -/
inductive FVal where
  | scalar (s : Scalar)
  | list (vs : List Scalar)
deriving DecidableEq

/-- A filter value in a filter map: a literal scalar, a multi-value list,
or an operator object (a dict). -/
inductive PyVal where
  | scalar (s : Scalar)
  | list (vs : List Scalar)
  | dict (kvs : List (String × FVal))
deriving DecidableEq

/-- A CRM record: a field-name-to-value mapping (`dict` with unique keys). -/
abbrev Record := List (String × Scalar)

/-- Python `d.get(k)` / `d[k]` on an association list standing for a dict. -/
def lookupKey {α : Type} (k : String) : List (String × α) → Option α
  | [] => Option.none
  | (k₁, v) :: rest => if k₁ = k then some v else lookupKey k rest

/-!
## Ephemeral result cache (`_cache_data` / `_get_cached_data`, crm_tools.py 1093–1104)
-/

/-- `CACHE_TTL = 3600` (crm_tools.py line 158). -/
def CACHE_TTL : ℚ := 3600

/-- A cache slot: `{"data": data, "expires_at": time.time() + CACHE_TTL}`. -/
structure CacheEntry where
  data : List Record
  expires_at : ℚ

/-- The process-wide `_data_cache` dict, keyed by generated handle. -/
abbrev Cache := List (String × CacheEntry)

/-- `_cache_data`: store the records under a fresh handle with expiry
`now + CACHE_TTL`.  The fresh uuid-derived handle is passed explicitly. -/
def cache_data (cache : Cache) (freshId : String) (data : List Record) (now : ℚ) : Cache :=
  (freshId, ⟨data, now + CACHE_TTL⟩) :: cache

/-- `_get_cached_data`: return the stored records while `time.time()` is
strictly before the entry's expiry, else `None`. -/
def get_cached_data (cache : Cache) (dataId : String) (now : ℚ) : Option (List Record) :=
  match lookupKey dataId cache with
  | some e => if now < e.expires_at then some e.data else Option.none
  | Option.none => Option.none

/-!
## Task identity continuation (`_process_task`, mcp_agent.py 1032–1041)
-/

/-- The page-selection step of `_process_task`: with a carried prior task id,
keep the requested page when the freshly computed id matches it, else restart
at page 1; with no carried id, keep the requested page. -/
def decide_task_page (targetTaskId : Option String) (currentTaskId : String) (page : ℕ) : ℕ :=
  match targetTaskId with
  | some t => if currentTaskId = t then page else 1
  | Option.none => page

/-!
## Task identity (`_generate_task_id`, mcp_agent.py 1008–1012)

`json.dumps(filters, sort_keys=True, default=str)` serializes the filter
dict with its keys sorted; the digest is `md5(f"{module}|{filter_str}")`.
The hash itself is kept abstract (a parameter): the claims are about
equality of digests, which only depends on equality of the hashed strings.
-/

/-- Lexicographic `≤` on Python strings (CPython's `sorted` on `str`
compares code points lexicographically). -/
def chars_le : List Char → List Char → Bool
  | [], _ => true
  | _ :: _, [] => false
  | a :: as, b :: bs => if a < b then true else if b < a then false else chars_le as bs

theorem chars_le_total (s t : List Char) : chars_le s t = true ∨ chars_le t s = true := by
  induction s generalizing t with
  | nil => left; rfl
  | cons a as ih =>
    cases t with
    | nil => right; rfl
    | cons b bs =>
      rcases lt_trichotomy a b with h | h | h
      · left; simp [chars_le, h]
      · subst h
        rcases ih bs with h₂ | h₂
        · left; simp [chars_le, h₂]
        · right; simp [chars_le, h₂]
      · right; simp [chars_le, h, not_lt_of_lt h]

theorem chars_le_antisymm {s t : List Char} (h₁ : chars_le s t = true)
    (h₂ : chars_le t s = true) : s = t := by
  induction s generalizing t with
  | nil =>
    cases t with
    | nil => rfl
    | cons b bs => simp [chars_le] at h₂
  | cons a as ih =>
    cases t with
    | nil => simp [chars_le] at h₁
    | cons b bs =>
      rcases lt_trichotomy a b with h | h | h
      · simp [chars_le, h, not_lt_of_lt h] at h₂
      · subst h
        simp only [chars_le, lt_irrefl, if_false] at h₁ h₂
        exact congrArg (a :: ·) (ih h₁ h₂)
      · simp [chars_le, h, not_lt_of_lt h] at h₁

theorem chars_le_trans {s t u : List Char} (h₁ : chars_le s t = true)
    (h₂ : chars_le t u = true) : chars_le s u = true := by
  induction s generalizing t u with
  | nil => rfl
  | cons a as ih =>
    cases t with
    | nil => simp [chars_le] at h₁
    | cons b bs =>
      cases u with
      | nil => simp [chars_le] at h₂
      | cons c cs =>
        rcases lt_trichotomy a b with hab | hab | hab
        · rcases lt_trichotomy b c with hbc | hbc | hbc
          · simp [chars_le, lt_trans hab hbc]
          · subst hbc; simp [chars_le, hab]
          · simp [chars_le, hbc, not_lt_of_lt hbc] at h₂
        · subst hab
          rcases lt_trichotomy a c with hac | hac | hac
          · simp [chars_le, hac]
          · subst hac
            simp only [chars_le, lt_irrefl, if_false] at h₁ h₂ ⊢
            exact ih h₁ h₂
          · simp [chars_le, hac, not_lt_of_lt hac] at h₂
        · simp [chars_le, hab, not_lt_of_lt hab] at h₁

/-- The key ordering used by `sort_keys=True`, on dict keys. -/
def key_le (a b : String) : Prop := chars_le a.data b.data = true

instance : DecidableRel key_le := fun a b => by unfold key_le; infer_instance

instance : IsTotal String key_le := ⟨fun a b => chars_le_total a.data b.data⟩

instance : IsTrans String key_le := ⟨fun _ _ _ => chars_le_trans⟩

instance : IsAntisymm String key_le :=
  ⟨fun a b h₁ h₂ => by
    cases a; cases b
    exact congrArg String.mk (chars_le_antisymm h₁ h₂)⟩

/-- JSON string escaping (quote and backslash; other characters pass through,
which is exact for every key and value the claims touch). -/
def json_escape_char (c : Char) : List Char :=
  if c = '\"' then ['\\', '\"'] else if c = '\\' then ['\\', '\\'] else [c]

/-- A JSON string literal. -/
def json_quote (s : PyS) : PyS := '\"' :: (s.flatMap json_escape_char ++ ['\"'])

/-- Join with a separator. -/
def intercalateS (sep : PyS) : List PyS → PyS
  | [] => []
  | [x] => x
  | x :: xs => x ++ sep ++ intercalateS sep xs

/-- JSON serialization of a scalar. -/
def json_atom : Scalar → PyS
  | .str s => json_quote s
  | .int n => (toString n).data
  | .none => "null".data

/-- JSON object serialization with `sort_keys=True`: keys are sorted and each
key is looked up in the (unique-keyed) dict; values arrive pre-serialized. -/
def serialize_obj (pairs : List (String × PyS)) : PyS :=
  let ks := List.insertionSort key_le (pairs.map Prod.fst)
  Char.ofNat 123 ::
    (intercalateS ", ".data
      (ks.map fun k => json_quote k.data ++ ": ".data ++ ((lookupKey k pairs).getD "null".data))
      ++ [Char.ofNat 125])

/-- JSON serialization of a criteria-dict value. -/
def serialize_fval : FVal → PyS
  | .scalar s => json_atom s
  | .list vs => '[' :: (intercalateS ", ".data (vs.map json_atom) ++ [']'])

/-- JSON serialization of a filter value: nested dicts also get their
keys sorted, as `json.dumps(..., sort_keys=True)` does recursively. -/
def serialize_pyval : PyVal → PyS
  | .scalar s => json_atom s
  | .list vs => '[' :: (intercalateS ", ".data (vs.map json_atom) ++ [']'])
  | .dict kvs => serialize_obj (kvs.map fun kv => (kv.1, serialize_fval kv.2))

/-- `json.dumps(filters, sort_keys=True, default=str)`. -/
def json_dumps_sort_keys (filters : List (String × PyVal)) : PyS :=
  serialize_obj (filters.map fun kv => (kv.1, serialize_pyval kv.2))

/-- `_generate_task_id`: md5 digest of `f"{module}|{filter_str}"`, with the
hash function abstracted as a parameter. -/
def generate_task_id (md5 : PyS → String) (module : String)
    (filters : List (String × PyVal)) : String :=
  md5 (module.data ++ '|' :: json_dumps_sort_keys filters)

/-!
## Lemmas: dict lookup and sorted-key serialization are invariant under
reordering of a unique-keyed dict.
-/

theorem lookupKey_perm {α : Type} {l₁ l₂ : List (String × α)} (hp : l₁.Perm l₂)
    (hnd : (l₁.map Prod.fst).Nodup) (k : String) : lookupKey k l₁ = lookupKey k l₂ := by
  induction hp with
  | nil => rfl
  | cons x _ ih =>
    simp only [List.map_cons, List.nodup_cons] at hnd
    simp only [lookupKey]
    by_cases hx : x.1 = k
    · simp [hx]
    · simp [hx, ih hnd.2]
  | swap x y l =>
    simp only [List.map_cons, List.nodup_cons, List.mem_cons] at hnd
    have hxy : y.1 ≠ x.1 := fun h => hnd.1 (Or.inl h)
    simp only [lookupKey]
    by_cases hy : y.1 = k
    · have hx : x.1 ≠ k := fun h => hxy (hy.trans h.symm)
      simp [hy, hx]
    · by_cases hx : x.1 = k <;> simp [hx, hy]
  | trans h₁₂ _ ih₁ ih₂ =>
    have hnd₂ := ((h₁₂.map Prod.fst).nodup_iff).mp hnd
    exact (ih₁ hnd).trans (ih₂ hnd₂)

theorem serialize_obj_perm {p₁ p₂ : List (String × PyS)} (hp : p₁.Perm p₂)
    (hnd : (p₁.map Prod.fst).Nodup) : serialize_obj p₁ = serialize_obj p₂ := by
  have hkeys : (p₁.map Prod.fst).Perm (p₂.map Prod.fst) := hp.map Prod.fst
  have hsorted :
      List.insertionSort key_le (p₁.map Prod.fst)
        = List.insertionSort key_le (p₂.map Prod.fst) := by
    refine List.eq_of_perm_of_sorted ?_ (List.sorted_insertionSort key_le _)
      (List.sorted_insertionSort key_le _)
    exact ((List.perm_insertionSort key_le _).trans hkeys).trans
      (List.perm_insertionSort key_le _).symm
  have hlook : ∀ k, lookupKey k p₁ = lookupKey k p₂ := lookupKey_perm hp hnd
  unfold serialize_obj
  rw [hsorted]
  have hmap :
      (List.insertionSort key_le (p₂.map Prod.fst)).map
          (fun k => json_quote k.data ++ ": ".data ++ ((lookupKey k p₁).getD "null".data))
        = (List.insertionSort key_le (p₂.map Prod.fst)).map
          (fun k => json_quote k.data ++ ": ".data ++ ((lookupKey k p₂).getD "null".data)) :=
    List.map_congr_left fun k _ => by rw [hlook k]
  simp only [hmap]

/-!
## Sum aggregation (`calculate_total_amount`, crm_tools.py 1283–1374)

`float` values are modelled as exact decimals `(num, places)` with value
`num / 10 ^ places`; every amount in the claims is exactly representable.
-/

/-- `re.sub(r"[^\d.-]", "", str(val))`: keep only digits, `.` and `-`. -/
def clean_chars (s : PyS) : PyS :=
  s.filter fun c => c.isDigit || c == '.' || c == '-'

/-- Decimal digit accumulation (`int` of a digit string). -/
def digitsVal : List Char → ℕ :=
  List.foldl (fun n c => 10 * n + (c.toNat - 48)) 0

/-- CPython `float(s)` on an unsigned string of digits and dots: at most one
dot and at least one digit, as exact decimal `(num, places)`; `None` models
`ValueError`. -/
def parse_udec (s : PyS) : Option (ℤ × ℕ) :=
  if s.all (fun c => c.isDigit || c == '.') then
    match s.count '.' with
    | 0 => if s.isEmpty then Option.none else some ((digitsVal s : ℤ), 0)
    | 1 =>
      let ip := s.takeWhile (fun c => c != '.')
      let fp := (s.dropWhile (fun c => c != '.')).tail
      if ip.isEmpty && fp.isEmpty then Option.none
      else some ((digitsVal ip * 10 ^ fp.length + digitsVal fp : ℤ), fp.length)
    | _ => Option.none
  else Option.none

/-- CPython `float(s)` with an optional leading minus sign. -/
def parse_dec : PyS → Option (ℤ × ℕ)
  | '-' :: rest => (parse_udec rest).map fun p => (-p.1, p.2)
  | s => parse_udec s

/-- The rational value of an exact decimal. -/
def decToRat (p : ℤ × ℕ) : ℚ := (p.1 : ℚ) / 10 ^ p.2

/-- The per-record step of `calculate_total_amount`: `some p` when the record
contributes the parsed decimal `p` to the total, `none` when it is counted
as `records_without_amount` (falsy/placeholder value, empty cleaned string,
`float` failure, or a parsed amount equal to zero). -/
def amount_dec (rec : Record) : Option (ℤ × ℕ) :=
  let val := (lookupKey "amount" rec).getD Scalar.none
  if !pyTruthy val
      || (trimS (pyStr val)).isEmpty
      || trimS (pyStr val) == "None".data
      || trimS (pyStr val) == "null".data then Option.none
  else
    let clean := clean_chars (pyStr val)
    if clean.isEmpty then Option.none
    else
      match parse_dec clean with
      | some p => if p.1 = 0 then Option.none else some p
      | Option.none => Option.none

/-- The accumulation loop of `calculate_total_amount`:
`(total_amount, records_with_amount, records_without_amount)`. -/
def sum_pass : List Record → ℚ × ℕ × ℕ
  | [] => (0, 0, 0)
  | rec :: rest =>
    let acc := sum_pass rest
    match amount_dec rec with
    | some p => (acc.1 + decToRat p, acc.2.1 + 1, acc.2.2)
    | Option.none => (acc.1, acc.2.1, acc.2.2 + 1)

/-- Round-half-even at integer precision (CPython `round`). -/
def round_half_even (q : ℚ) : ℤ :=
  let f := ⌊q⌋
  if q - f < 1 / 2 then f
  else if 1 / 2 < q - f then f + 1
  else if f % 2 = 0 then f else f + 1

/-- `round(x, 2)`. -/
def round2 (q : ℚ) : ℚ := (round_half_even (q * 100) : ℚ) / 100

/-- The result dict of `calculate_total_amount`. -/
structure AmountTotals where
  total_amount : ℚ
  records_processed : ℕ
  records_with_amount : ℕ
  records_without_amount : ℕ

/-- `calculate_total_amount` on a records list; `none` models the
`ValueError("No records found")` raised for an empty list. -/
def calculate_total_amount (records : List Record) : Option AmountTotals :=
  if records.isEmpty then Option.none
  else
    let acc := sum_pass records
    some ⟨round2 acc.1, records.length, acc.2.1, acc.2.2⟩

/-!
## Local post-filter (`_apply_local_filters`, crm_tools.py 1552–1600) and
its application inside `query_crm_data` (crm_tools.py 1839–1840)
-/

/-- `criteria.get("operator", "eq")` as a string; a non-string operator value
is a member of no operator list and hence enforces nothing (`none`). -/
def criteria_op (kvs : List (String × FVal)) : Option PyS :=
  match lookupKey "operator" kvs with
  | Option.none => some "eq".data
  | some (.scalar (.str o)) => some o
  | some _ => Option.none

/-- One criterion of `_apply_local_filters`, applied to the record's value
`val` for the filter key (the Python `isinstance` dispatch, in source order):
list criteria check lowercased set-membership, operator objects whose
`"value"` is a list likewise, string criteria check lowercased substring
containment, int criteria check lowercased stringified equality, and operator
objects with a scalar `"value"` enforce `eq`-style substring containment or
`neq` inequality — every other operator passes the record through. -/
def matches_criteria (val : Scalar) (criteria : PyVal) : Bool :=
  match criteria with
  | .list vs => (vs.map fun v => lowerS (pyStr v)).contains (lowerS (pyStr val))
  | .dict kvs =>
    match lookupKey "value" kvs with
    | some (.list vs) => (vs.map fun v => lowerS (pyStr v)).contains (lowerS (pyStr val))
    | some (.scalar tv) =>
      match criteria_op kvs with
      | some op =>
        if op = "eq".data ∨ op = "=".data ∨ op = "equals".data then
          contains_sub (lowerS (pyStr val)) (lowerS (pyStr tv))
        else if op = "not_equal".data ∨ op = "neq".data then
          !(lowerS (pyStr tv) == lowerS (pyStr val))
        else true
      | Option.none => true
    | Option.none => true
  | .scalar (.str s) => contains_sub (lowerS (pyStr val)) (lowerS s)
  | .scalar (.int n) => lowerS (pyStr val) == lowerS (pyStr (.int n))
  | .scalar .none => true

/-- The per-record loop body: a record matches when every filter whose key it
carries passes `matches_criteria`; a record lacking the key is skipped
(`if key not in rec: continue`). -/
def record_matches (filters : List (String × PyVal)) (rec : Record) : Bool :=
  filters.all fun kc =>
    match lookupKey kc.1 rec with
    | Option.none => true
    | some val => matches_criteria val kc.2

/-- `_apply_local_filters`: identity for an empty filter map or record list,
else keep exactly the matching records. -/
def apply_local_filters (records : List Record) (filters : List (String × PyVal)) :
    List Record :=
  if filters.isEmpty || records.isEmpty then records
  else records.filter (record_matches filters)

/-!
## Multi-value fan-out (`_fetch_data_handling_multi_values`, mcp_agent.py 389–458)
-/

/-- The result dict of `query_crm_data` / the fan-out executor. -/
structure QueryResult where
  count : ℕ
  records : List Record
  module : String
  data_id : Option String

/-- The multi-value detection on one filter value: a plain list, or an
operator object whose `"value"` is a list. -/
def value_list : PyVal → Option (List Scalar)
  | .list vs => some vs
  | .dict kvs =>
    match lookupKey "value" kvs with
    | some (.list vs) => some vs
    | _ => Option.none
  | _ => Option.none

/-- The `for k, v in filters.items()` scan: first multi-valued field wins. -/
def find_multi_value : List (String × PyVal) → Option (String × List Scalar)
  | [] => Option.none
  | (k, v) :: rest =>
    match value_list v with
    | some vs => some (k, vs)
    | Option.none => find_multi_value rest

/-- `single_filter = filters.copy(); single_filter[multi_value_key] = val`. -/
def update_filter (filters : List (String × PyVal)) (k : String) (v : Scalar) :
    List (String × PyVal) :=
  filters.map fun kc => if kc.1 = k then (kc.1, PyVal.scalar v) else kc

/-- The filter maps of the issued sub-fetches, one per value, in input order. -/
def sub_fetch_filters (filters : List (String × PyVal)) (k : String)
    (vs : List Scalar) : List (List (String × PyVal)) :=
  vs.map (update_filter filters k)

/-- The merge loop: first occurrence of each record id is kept, in the order
sub-results are concatenated (`asyncio.gather` returns them in task order,
i.e. input-value order, not completion order). -/
def dedup_by_id_aux : List Record → List (Option Scalar) → List Record
  | [], _ => []
  | r :: rs, seen =>
    if lookupKey "id" r ∈ seen then dedup_by_id_aux rs seen
    else r :: dedup_by_id_aux rs (lookupKey "id" r :: seen)

def dedup_by_id (rs : List Record) : List Record := dedup_by_id_aux rs []

/-- `_fetch_data_handling_multi_values` with the single-query fetch
(`query_crm_data`) abstracted as a function and the generated cache handle
passed explicitly: no multi-valued field delegates directly; otherwise one
sub-fetch per value, merged with id-deduplication. -/
def fetch_data_handling_multi_values (fetch : List (String × PyVal) → QueryResult)
    (module : String) (filters : List (String × PyVal)) (freshId : String) :
    QueryResult :=
  match find_multi_value filters with
  | Option.none => fetch filters
  | some (k, vs) =>
    let allRecords :=
      dedup_by_id ((sub_fetch_filters filters k vs).map fun f => (fetch f).records).flatten
    ⟨allRecords.length, allRecords, module, some freshId⟩

/-!
## Chart grouping (`_plot_crm_data`, crm_tools.py 1948–1957, `y_col = None` path)
-/

/-- pandas `notna`: `None` is the only NA scalar here. -/
def py_not_na : Scalar → Bool
  | .none => false
  | _ => true

/-- The kept categorical values of the x column after
`df = df[df[x_col].notna()]` and the empty-after-strip drop, as strings
(a record lacking the column is NA in the frame and is dropped). -/
def chart_values (records : List Record) (xCol : String) : List PyS :=
  records.filterMap fun r =>
    match lookupKey xCol r with
    | some v => if py_not_na v && !(trimS (pyStr v)).isEmpty then some (pyStr v) else Option.none
    | Option.none => Option.none

/-- `df.groupby(x_col).size()` (group keys sorted ascending, pandas default)
followed by `df.sort_values(by="Count", ascending=False)` (stable on this
size of input): per-category counts, sorted descending by count. -/
def chart_group_counts (records : List Record) (xCol : String) : List (PyS × ℕ) :=
  let vals := chart_values records xCol
  let keys := List.insertionSort (fun a b : PyS => chars_le a b = true) vals.dedup
  let counts := keys.map fun k => (k, vals.count k)
  List.insertionSort (fun a b : PyS × ℕ => b.2 ≤ a.2) counts

/-!
## Cache writes around a fetch (crm_tools.py 1866, mcp_agent.py 453–458)
and the workflows' zero-record paths (mcp_agent.py 656–702, 842–881, 942–955)
-/

/-- The tail of `query_crm_data`: a cache entry is written only for a
non-empty processed record list
(`data_id = _cache_data(processed_records) if len(processed_records) > 0 else None`). -/
def query_cache_step (processed : List Record) (cache : Cache) (now : ℚ)
    (freshId : String) : Option String × Cache :=
  if processed.length > 0 then (some freshId, cache_data cache freshId processed now)
  else (Option.none, cache)

/-- The return of the fan-out branch of `_fetch_data_handling_multi_values`:
`"data_id": crm_tools._cache_data(all_records)` — written unconditionally,
empty merge included. -/
def fanout_cache_step (allRecords : List Record) (cache : Cache) (now : ℚ)
    (freshId : String) : Option String × Cache :=
  (some freshId, cache_data cache freshId allRecords now)

/-- `_fetch_data_handling_multi_values` together with the cache writes of the
path taken: the delegated single query writes only for non-empty results,
the fan-out branch always writes its merged record list. -/
def fetch_multi_values_cached (fetch : List (String × PyVal) → List Record)
    (module : String) (filters : List (String × PyVal)) (cache : Cache) (now : ℚ)
    (freshId : String) : QueryResult × Cache :=
  match find_multi_value filters with
  | Option.none =>
    let recs := fetch filters
    let step := query_cache_step recs cache now freshId
    (⟨recs.length, recs, module, step.1⟩, step.2)
  | some (k, vs) =>
    let allRecords :=
      dedup_by_id ((sub_fetch_filters filters k vs).map fetch).flatten
    let step := fanout_cache_step allRecords cache now freshId
    (⟨allRecords.length, allRecords, module, step.1⟩, step.2)

/-- The response of `_execute_sum_workflow`; `summary_totals = none` exactly
on the zero-record short-circuit, where `calculate_total_amount` is never
invoked. -/
structure SumResp where
  count : ℕ
  records : List Record
  summary_totals : Option AmountTotals

def execute_sum_workflow (res : QueryResult) : SumResp :=
  if res.count = 0 then ⟨res.count, res.records.take 20, Option.none⟩
  else ⟨res.count, res.records.take 20, calculate_total_amount res.records⟩

/-- The response of `_execute_count_workflow`: cardinality only, no
aggregation pass exists on any path. -/
structure CountResp where
  count : ℕ
  records : List Record

def execute_count_workflow (res : QueryResult) : CountResp :=
  ⟨res.count, res.records.take 20⟩

/-- The response of `_execute_list_workflow` (non-split path): the `count`
key always carries the fetched count; on a zero total the no-records table is
returned before any display work. -/
structure ListResp where
  count : ℕ
  table : String

def execute_list_workflow (res : QueryResult) : ListResp :=
  if res.count = 0 then ⟨res.count, "_No records found_"⟩
  else ⟨res.count, "table"⟩

/-- The response of `_execute_chart_workflow`: the assembled dict
`{"type": "chart", "module": ...}` never carries a `count` key
(`count = Option.none` models the absent key); on zero records only a
message is attached and no chart is generated. -/
structure ChartResp where
  count : Option ℕ
  message : String
  chart_generated : Bool

def execute_chart_workflow (module : String) (res : QueryResult) : ChartResp :=
  if res.count = 0 then ⟨Option.none, "No data found for " ++ module ++ ".", false⟩
  else ⟨Option.none, "chart analysis", true⟩

/-!
## Authentication state (`resolve_auth_token`, crm_tools.py 128–145) and the
401 handler inside `query_crm_data` (crm_tools.py 1803–1809)
-/

/-- The process-wide authentication state: the per-request context token and
the `_user_session_cache` consulted by `resolve_auth_token`. -/
structure AuthState where
  context_token : Option String
  session_token : Option String
  session_expires_at : ℚ
deriving DecidableEq

/-- A raised Python exception. -/
inductive PyExc where
  | nameError (n : String)
  | valueError (msg : String)
deriving DecidableEq

/-- The names bound at module scope in `crm_tools.py` that are relevant to
the 401 handler.  `_system_token_cache` is absent: no assignment to that name
exists anywhere in the repository, so the handler's read of it raises
`NameError` despite its `global` declaration. -/
def crm_tools_module_globals : List String :=
  ["user_token_ctx", "_user_session_cache", "encrypt_password",
   "perform_user_login", "resolve_auth_token", "CRM_UI_BASE_URL",
   "SERPER_API_KEY", "API_DOMAIN_URL", "CRM_LIST_ENDPOINT", "ROOT_PATH",
   "plot_dir", "_data_cache", "CACHE_TTL", "CRM_MODULES", "todays_date",
   "get_available_modules", "_resolve_module", "_cache_data",
   "_get_cached_data", "web_search", "get_current_time",
   "calculate_total_amount", "smart_display_results", "generate_crm_link",
   "format_records_as_markdown_table", "get_table_from_query",
   "query_and_format_table", "_apply_local_filters", "query_crm_data",
   "create_chart_from_crm_data", "_plot_crm_data"]

/-- The 401 branch of `query_crm_data`: were `_system_token_cache` a bound
global, the handler would clear its token slot when it matches the rejected
one and raise `ValueError("CRM Authentication Failed. Please retry.")`; the
name is unbound, so evaluating `_system_token_cache["access_token"]` raises
`NameError` and the authentication state is left untouched either way
(`_user_session_cache` is never mentioned by the handler). -/
def handle_401 (st : AuthState) (_accessToken : String) : PyExc × AuthState :=
  if "_system_token_cache" ∈ crm_tools_module_globals then
    (PyExc.valueError "CRM Authentication Failed. Please retry.", st)
  else
    (PyExc.nameError "_system_token_cache", st)

/-- `resolve_auth_token`, returning the token or the raised exception plus
the possibly updated state: the context token wins when longer than 10
characters after stripping; else a cached, unexpired session token is
returned; an expired one is cleared; else the not-logged-in `ValueError`. -/
def resolve_auth_token (st : AuthState) (now : ℚ) : Except PyExc String × AuthState :=
  let sessionPath : Except PyExc String × AuthState :=
    match st.session_token with
    | some tok =>
      if now < st.session_expires_at then (Except.ok tok, st)
      else
        (Except.error (PyExc.valueError
            "You are not logged in. Please use the login tool first."),
          { st with session_token := Option.none })
    | Option.none =>
      (Except.error (PyExc.valueError
          "You are not logged in. Please use the login tool first."), st)
  match st.context_token with
  | some t => if 10 < t.trim.length then (Except.ok t, st) else sessionPath
  | Option.none => sessionPath

/-!
## Claims
-/

/-- C3: the task identity is a pure function of `(module, filters)` (it is a
Lean function of exactly these arguments and an abstract digest), and two
filter maps binding the same keys to the same values — in any insertion
order — yield the identical digest, for every digest function. -/
theorem c3_task_id_invariant (md5 : PyS → String) (module : String)
    (l₁ l₂ : List (String × PyVal)) (hperm : l₁.Perm l₂)
    (hnd : (l₁.map Prod.fst).Nodup) :
    generate_task_id md5 module l₁ = generate_task_id md5 module l₂ := by
  unfold generate_task_id json_dumps_sort_keys
  have hp : (l₁.map fun kv => (kv.1, serialize_pyval kv.2)).Perm
      (l₂.map fun kv => (kv.1, serialize_pyval kv.2)) := hperm.map _
  have hnd₁ : ((l₁.map fun kv => (kv.1, serialize_pyval kv.2)).map Prod.fst).Nodup := by
    have heq : (l₁.map fun kv => (kv.1, serialize_pyval kv.2)).map Prod.fst
        = l₁.map Prod.fst := by
      simp [List.map_map, Function.comp]
    rw [heq]; exact hnd
  rw [serialize_obj_perm hp hnd₁]

/-- C3 witness: a concrete two-key filter map and its key-swapped reordering
produce the same identity. -/
theorem c3_witness :
    generate_task_id (fun s => String.mk s) "Leads"
        [("a", PyVal.scalar (Scalar.int 1)), ("b", PyVal.scalar (Scalar.int 2))]
      = generate_task_id (fun s => String.mk s) "Leads"
        [("b", PyVal.scalar (Scalar.int 2)), ("a", PyVal.scalar (Scalar.int 1))] :=
  c3_task_id_invariant (fun s => String.mk s) "Leads" _ _
    (List.Perm.swap ("b", PyVal.scalar (Scalar.int 2)) ("a", PyVal.scalar (Scalar.int 1)) [])
    (by decide)

/-- C4: on a continuation request carrying a prior task identity and the next
page number, the page used for the fetch is `priorPage + 1` exactly when the
freshly computed identity matches the carried one, and resets to 1 when it
differs. -/
theorem c4_continuation_page (md5 : PyS → String) (module : String)
    (filters : List (String × PyVal)) (target : String) (priorPage page : ℕ)
    (hcont : page = priorPage + 1) :
    decide_task_page (some target) (generate_task_id md5 module filters) page
      = if generate_task_id md5 module filters = target then priorPage + 1 else 1 := by
  subst hcont
  simp [decide_task_page]

/-- C4 witness: with a matching identity the page 5 request (prior page 4)
fetches page 5; with a mismatching identity it fetches page 1. -/
theorem c4_witness :
    (decide_task_page (some (generate_task_id (fun _ => "d0") "Leads" []))
        (generate_task_id (fun _ => "d0") "Leads" []) 5
      = if generate_task_id (fun _ => "d0") "Leads" []
            = generate_task_id (fun _ => "d0") "Leads" [] then 4 + 1 else 1) ∧
    (decide_task_page (some "other") (generate_task_id (fun _ => "d0") "Leads" []) 5
      = if generate_task_id (fun _ => "d0") "Leads" [] = "other" then 4 + 1 else 1) :=
  ⟨c4_continuation_page (fun _ => "d0") "Leads" []
      (generate_task_id (fun _ => "d0") "Leads" []) 4 5 rfl,
    c4_continuation_page (fun _ => "d0") "Leads" [] "other" 4 5 rfl⟩

/-- C8: a record set cached at time `T` is returned by a lookup at any time
strictly before `T + CACHE_TTL` and reported missing at any time from
`T + CACHE_TTL` on. -/
theorem c8_cache_ttl (cache : Cache) (dataId : String) (data : List Record) (T t : ℚ) :
    (t < T + CACHE_TTL →
      get_cached_data (cache_data cache dataId data T) dataId t = some data) ∧
    (T + CACHE_TTL ≤ t →
      get_cached_data (cache_data cache dataId data T) dataId t = Option.none) := by
  constructor <;> intro h
  · simp [get_cached_data, cache_data, lookupKey, h]
  · simp [get_cached_data, cache_data, lookupKey, not_lt.mpr h]

/-- C8 witness: an entry stored at time 0 is found at time 1 and gone at time
3600. -/
theorem c8_witness :
    ((1 : ℚ) < 0 + CACHE_TTL ∧
      get_cached_data (cache_data [] "crm_data_ab" [] 0) "crm_data_ab" 1 = some []) ∧
    ((0 : ℚ) + CACHE_TTL ≤ 3600 ∧
      get_cached_data (cache_data [] "crm_data_ab" [] 0) "crm_data_ab" 3600 = Option.none) :=
  ⟨⟨by norm_num [CACHE_TTL],
      (c8_cache_ttl [] "crm_data_ab" [] 0 1).1 (by norm_num [CACHE_TTL])⟩,
    ⟨by norm_num [CACHE_TTL],
      (c8_cache_ttl [] "crm_data_ab" [] 0 3600).2 (by norm_num [CACHE_TTL])⟩⟩

/-- C9: for records whose categorical field values are `[A, A, B, C]` and no
numeric field, the chart grouping yields counts `A:2, B:1, C:1`, sorted
descending by count, so the output category order is `[A, B, C]`. -/
theorem c9_chart_grouping :
    chart_group_counts
        [[("id", Scalar.str "1".data), ("status", Scalar.str "A".data)],
         [("id", Scalar.str "2".data), ("status", Scalar.str "A".data)],
         [("id", Scalar.str "3".data), ("status", Scalar.str "B".data)],
         [("id", Scalar.str "4".data), ("status", Scalar.str "C".data)]] "status"
      = [("A".data, 2), ("B".data, 1), ("C".data, 1)] := by
  decide

/-- C5: on `[{amount: "100"}, {amount: "abc"}, {amount: null}, {amount: "50.50"}]`
the sum aggregation returns `total_amount = 150.50` with 2 contributing and 2
excluded records; and in general every record whose amount does not
contribute (missing/non-numeric/placeholder) leaves the total and the
contributing count unchanged and increments the excluded count. -/
theorem c5_sum_aggregation :
    (calculate_total_amount
        [[("amount", Scalar.str "100".data)],
         [("amount", Scalar.str "abc".data)],
         [("amount", Scalar.none)],
         [("amount", Scalar.str "50.50".data)]]
      = some ⟨301 / 2, 4, 2, 2⟩) ∧
    (∀ (recs : List Record) (rec : Record), amount_dec rec = Option.none →
      sum_pass (rec :: recs)
        = ((sum_pass recs).1, (sum_pass recs).2.1, (sum_pass recs).2.2 + 1)) := by
  constructor
  · have h1 : amount_dec [("amount", Scalar.str "100".data)] = some (100, 0) := by decide
    have h2 : amount_dec [("amount", Scalar.str "abc".data)] = Option.none := by decide
    have h3 : amount_dec [("amount", Scalar.none)] = Option.none := by decide
    have h4 : amount_dec [("amount", Scalar.str "50.50".data)] = some (5050, 2) := by decide
    have hre : round_half_even (15050 : ℚ) = 15050 := by
      have hv : (15050 : ℚ) = ((15050 : ℤ) : ℚ) := by norm_num
      rw [round_half_even, hv, Int.floor_intCast]
      norm_num
    simp only [calculate_total_amount, sum_pass, h1, h2, h3, h4, decToRat,
      List.isEmpty_cons, List.length_cons, List.length_nil, round2,
      Option.some.injEq, AmountTotals.mk.injEq]
    norm_num [hre]
  · intro recs rec h
    simp [sum_pass, h]

/-- C5 witness: a single non-numeric amount record is excluded and counted. -/
theorem c5_witness :
    amount_dec [("amount", Scalar.str "abc".data)] = Option.none ∧
    sum_pass [[("amount", Scalar.str "abc".data)]] = ((0 : ℚ), 0, 1) := by
  have h : amount_dec [("amount", Scalar.str "abc".data)] = Option.none := by decide
  refine ⟨h, ?_⟩
  rw [c5_sum_aggregation.2 [] _ h]
  simp [sum_pass]

/-- C10: a record whose amount field parses to the numeric value 0 is
excluded from the total and counted in `records_without_amount`, exactly like
missing or non-numeric amounts. -/
theorem c10_zero_amount_excluded (recs : List Record) (rec : Record) (v : Scalar)
    (hlk : lookupKey "amount" rec = some v)
    (hz : ∃ p : ℤ × ℕ, parse_dec (clean_chars (pyStr v)) = some p ∧ p.1 = 0) :
    sum_pass (rec :: recs)
      = ((sum_pass recs).1, (sum_pass recs).2.1, (sum_pass recs).2.2 + 1) := by
  obtain ⟨p, hp, hp0⟩ := hz
  have hnone : amount_dec rec = Option.none := by
    unfold amount_dec
    rw [hlk]
    simp only [Option.getD_some]
    by_cases hgate : (!pyTruthy v || (trimS (pyStr v)).isEmpty
        || trimS (pyStr v) == "None".data || trimS (pyStr v) == "null".data) = true
    · simp [hgate]
    · simp only [Bool.not_eq_true] at hgate
      simp only [hgate, Bool.false_eq_true, if_false]
      by_cases hcl : (clean_chars (pyStr v)).isEmpty
      · simp only [List.isEmpty_iff] at hcl
        rw [hcl] at hp
        have : parse_dec [] = Option.none := by decide
        rw [this] at hp
        exact absurd hp (by simp)
      · simp [hcl, hp, hp0]
  simp [sum_pass, hnone]

/-- C10 witness: a record with amount `"0.00"` contributes nothing and is
counted as a record without amount. -/
theorem c10_witness :
    lookupKey "amount" [("amount", Scalar.str "0.00".data)]
        = some (Scalar.str "0.00".data) ∧
    sum_pass [[("amount", Scalar.str "0.00".data)]] = ((0 : ℚ), 0, 1) := by
  have h1 : lookupKey "amount" [("amount", Scalar.str "0.00".data)]
      = some (Scalar.str "0.00".data) := by decide
  have h2 : ∃ p : ℤ × ℕ,
      parse_dec (clean_chars (pyStr (Scalar.str "0.00".data))) = some p ∧ p.1 = 0 :=
    ⟨(0, 2), by decide, rfl⟩
  refine ⟨h1, ?_⟩
  rw [c10_zero_amount_excluded [] _ _ h1 h2]
  simp [sum_pass]

/-!
## C1: the spec's matching rule versus the code's local post-filter
-/

/-- Numeric strict comparison of exact decimals (cross-multiplied). -/
def dec_lt (a b : ℤ × ℕ) : Bool := decide (a.1 * 10 ^ b.2 < b.1 * 10 ^ a.2)

/-- Numeric non-strict comparison of exact decimals. -/
def dec_le (a b : ℤ × ℕ) : Bool := decide (a.1 * 10 ^ b.2 ≤ b.1 * 10 ^ a.2)

/-- Numeric equality of exact decimals. -/
def dec_eq_num (a b : ℤ × ℕ) : Bool := decide (a.1 * 10 ^ b.2 = b.1 * 10 ^ a.2)

/-- Modelled from the spec: the claim's matching rule for operator-object
criteria — "numeric/date comparison for operator-object criteria" — on
numeric values: the record's value must stand in the operator's numeric
relation to the criterion value.  Date operators and non-numeric shapes are
not constrained by this model (the counterexample below is purely numeric). -/
def spec_operator_matches (v : Scalar) (kvs : List (String × FVal)) : Bool :=
  match lookupKey "value" kvs, lookupKey "operator" kvs with
  | some (.scalar tv), some (.scalar (.str op)) =>
    match parse_dec (pyStr v), parse_dec (pyStr tv) with
    | some a, some b =>
      if op = ">".data then dec_lt b a
      else if op = "<".data then dec_lt a b
      else if op = ">=".data then dec_le b a
      else if op = "<=".data then dec_le a b
      else if op = "=".data ∨ op = "eq".data ∨ op = "equals".data then dec_eq_num a b
      else if op = "not_equal".data ∨ op = "neq".data then !dec_eq_num a b
      else true
    | _, _ => true
  | _, _ => true

/-- Modelled from the spec: "substring containment for string criteria,
set-membership for list criteria, and numeric/date comparison for
operator-object criteria", applied to the record's value for the filter key. -/
def spec_satisfies_filter (r : Record) (k : String) (c : PyVal) : Bool :=
  match lookupKey k r with
  | Option.none => true
  | some v =>
    match c with
    | .scalar (.str s) => contains_sub (lowerS (pyStr v)) (lowerS s)
    | .scalar (.int n) => lowerS (pyStr v) == lowerS (pyStr (.int n))
    | .scalar .none => true
    | .list vs => (vs.map fun u => lowerS (pyStr u)).contains (lowerS (pyStr v))
    | .dict kvs => spec_operator_matches v kvs

/-- The C1 counterexample record and filter map: amount 50 against the
operator-object criterion `{operator: ">", value: "100"}`. -/
def c1_rec : Record := [("id", Scalar.str "r1".data), ("amount", Scalar.str "50".data)]

def c1_filters : List (String × PyVal) :=
  [("amount", PyVal.dict [("operator", FVal.scalar (Scalar.str ">".data)),
    ("value", FVal.scalar (Scalar.str "100".data))])]

/-- C1 counterexample: `_apply_local_filters` returns a record that violates
the claimed numeric-comparison rule — the local filter enforces nothing for
the `>` operator, so a record with amount 50 survives the filter
`{amount: {operator: ">", value: "100"}}` although 50 > 100 is false. -/
theorem c1_counterexample :
    c1_rec ∈ apply_local_filters [c1_rec] c1_filters ∧
    spec_satisfies_filter c1_rec "amount"
        (PyVal.dict [("operator", FVal.scalar (Scalar.str ">".data)),
          ("value", FVal.scalar (Scalar.str "100".data))]) = false := by
  decide

/-- C1 (amended): every record returned by the local post-filter satisfies,
for each filter whose key it carries, the code's matching rule
(`matches_criteria`): lowercased substring containment for string criteria,
lowercased set-membership for list criteria (plain lists and operator objects
whose value is a list), stringified equality for numeric criteria, and — for
operator objects with a scalar value — substring containment under
`eq`-equivalents and inequality under `neq`-equivalents, all other operators
(and records lacking the filter key) being passed through unchecked. -/
theorem c1_local_filter_guarantee (records : List Record)
    (filters : List (String × PyVal)) (r : Record)
    (hr : r ∈ apply_local_filters records filters) (k : String) (c : PyVal)
    (hkc : (k, c) ∈ filters) (v : Scalar) (hv : lookupKey k r = some v) :
    matches_criteria v c = true ∧
    (∀ s, c = PyVal.scalar (Scalar.str s) →
      contains_sub (lowerS (pyStr v)) (lowerS s) = true) ∧
    (∀ vs, c = PyVal.list vs →
      ((vs.map fun u => lowerS (pyStr u)).contains (lowerS (pyStr v))) = true) := by
  have hmain : matches_criteria v c = true := by
    unfold apply_local_filters at hr
    by_cases hf : filters.isEmpty
    · rw [List.isEmpty_iff] at hf
      subst hf
      exact absurd hkc (List.not_mem_nil _)
    · by_cases hrec : records.isEmpty
      · rw [List.isEmpty_iff] at hrec
        subst hrec
        simp at hr
      · simp only [hf, hrec, Bool.or_self, if_false] at hr
        have hm := List.of_mem_filter hr
        rw [record_matches, List.all_eq_true] at hm
        have hone := hm (k, c) hkc
        simp only at hone
        rw [hv] at hone
        exact hone
  refine ⟨hmain, ?_, ?_⟩
  · intro s hs
    subst hs
    simpa [matches_criteria] using hmain
  · intro vs hvs
    subst hvs
    simpa [matches_criteria] using hmain

/-- C1 witness: a returned record concretely satisfies a string criterion by
substring containment. -/
theorem c1_witness :
    [("status", Scalar.str "Open Deal".data)] ∈
      apply_local_filters [[("status", Scalar.str "Open Deal".data)]]
        [("status", PyVal.scalar (Scalar.str "open".data))] ∧
    contains_sub (lowerS (pyStr (Scalar.str "Open Deal".data)))
        (lowerS "open".data) = true := by
  have hr : [("status", Scalar.str "Open Deal".data)] ∈
      apply_local_filters [[("status", Scalar.str "Open Deal".data)]]
        [("status", PyVal.scalar (Scalar.str "open".data))] := by decide
  refine ⟨hr, ?_⟩
  exact (c1_local_filter_guarantee _ _ _ hr "status"
      (PyVal.scalar (Scalar.str "open".data)) (by decide)
      (Scalar.str "Open Deal".data) (by decide)).2.1 "open".data rfl

/-!
## C2: fan-out lemmas
-/

theorem find_multi_value_of_countP_zero {filters : List (String × PyVal)}
    (h : filters.countP (fun kv => (value_list kv.2).isSome) = 0) :
    find_multi_value filters = Option.none := by
  induction filters with
  | nil => rfl
  | cons kv rest ih =>
    rw [List.countP_cons] at h
    rcases hv : value_list kv.2 with _ | vs
    · obtain ⟨k₁, v₁⟩ := kv
      simp only [find_multi_value]
      rw [hv]
      exact ih (by omega)
    · rw [hv] at h
      simp at h

theorem find_multi_value_of_unique {filters : List (String × PyVal)}
    {k : String} {v : PyVal} {vs : List Scalar}
    (hmem : (k, v) ∈ filters) (hval : value_list v = some vs)
    (hcount : filters.countP (fun kv => (value_list kv.2).isSome) = 1) :
    find_multi_value filters = some (k, vs) := by
  induction filters with
  | nil => cases hmem
  | cons kv rest ih =>
    rw [List.countP_cons] at hcount
    obtain ⟨k₁, v₁⟩ := kv
    rcases hv₁ : value_list v₁ with _ | vs₁
    · simp only [find_multi_value]
      rw [hv₁]
      rcases List.mem_cons.mp hmem with hhead | htail
      · exfalso
        have hvv : v = v₁ := (Prod.ext_iff.mp hhead).2
        rw [← hvv, hval] at hv₁
        cases hv₁
      · rw [hv₁] at hcount
        simp only [Option.isSome_none, Bool.false_eq_true, if_false, add_zero] at hcount
        exact ih htail hcount
    · rw [hv₁] at hcount
      simp only [Option.isSome_some, if_true] at hcount
      have hrest : rest.countP (fun kv => (value_list kv.2).isSome) = 0 := by omega
      have hz := List.countP_eq_zero.mp hrest
      rcases List.mem_cons.mp hmem with hhead | htail
      · have hk : k = k₁ := (Prod.ext_iff.mp hhead).1
        have hvv : v = v₁ := (Prod.ext_iff.mp hhead).2
        subst hk; subst hvv
        rw [hval] at hv₁
        cases hv₁
        simp only [find_multi_value]
        rw [hval]
      · exfalso
        have := hz _ htail
        simp only [hval] at this
        simp at this

theorem dedup_by_id_aux_spec (rs : List Record) (seen : List (Option Scalar)) :
    (dedup_by_id_aux rs seen).Pairwise
        (fun a b => lookupKey "id" a ≠ lookupKey "id" b) ∧
      ∀ r ∈ dedup_by_id_aux rs seen, lookupKey "id" r ∉ seen := by
  induction rs generalizing seen with
  | nil => exact ⟨List.Pairwise.nil, by simp [dedup_by_id_aux]⟩
  | cons r rs ih =>
    by_cases h : lookupKey "id" r ∈ seen
    · simpa only [dedup_by_id_aux, h, if_true] using ih seen
    · simp only [dedup_by_id_aux, h, if_false]
      obtain ⟨ihp, ihs⟩ := ih (lookupKey "id" r :: seen)
      refine ⟨List.Pairwise.cons ?_ ihp, ?_⟩
      · intro b hb
        have := ihs b hb
        exact fun he => this (he ▸ List.mem_cons_self _ _)
      · intro x hx
        rcases List.mem_cons.mp hx with hx | hx
        · exact hx ▸ h
        · exact fun hs => ihs x hx (List.mem_cons_of_mem _ hs)

theorem dedup_by_id_aux_sublist (rs : List Record) (seen : List (Option Scalar)) :
    (dedup_by_id_aux rs seen).Sublist rs := by
  induction rs generalizing seen with
  | nil => exact List.Sublist.refl []
  | cons r rs ih =>
    by_cases h : lookupKey "id" r ∈ seen
    · simp only [dedup_by_id_aux, h, if_true]
      exact (ih seen).cons r
    · simp only [dedup_by_id_aux, h, if_false]
      exact (ih (lookupKey "id" r :: seen)).cons₂ r

/-- C2: with exactly one multi-valued field carrying `N = vs.length` values,
the fan-out executor issues exactly `N` sub-fetches (one per value, in input
order), the merged result has pairwise distinct record ids, and it is an
order-preserving selection from the sub-results concatenated in input-value
order (`asyncio.gather` task order), not completion order; with no
multi-valued field the call is exactly the single delegated fetch. -/
theorem c2_fanout (fetch : List (String × PyVal) → QueryResult)
    (module freshId : String) (filters : List (String × PyVal)) (k : String)
    (v : PyVal) (vs : List Scalar) :
    (filters.countP (fun kv => (value_list kv.2).isSome) = 1 →
      (k, v) ∈ filters → value_list v = some vs →
      (sub_fetch_filters filters k vs).length = vs.length ∧
      (fetch_data_handling_multi_values fetch module filters freshId).records.Pairwise
        (fun a b => lookupKey "id" a ≠ lookupKey "id" b) ∧
      (fetch_data_handling_multi_values fetch module filters freshId).records.Sublist
        (((sub_fetch_filters filters k vs).map fun f => (fetch f).records).flatten)) ∧
    (filters.countP (fun kv => (value_list kv.2).isSome) = 0 →
      fetch_data_handling_multi_values fetch module filters freshId = fetch filters) := by
  constructor
  · intro hcount hmem hval
    have hfind := find_multi_value_of_unique hmem hval hcount
    refine ⟨List.length_map _ _, ?_, ?_⟩
    · simp only [fetch_data_handling_multi_values, hfind]
      exact (dedup_by_id_aux_spec _ []).1
    · simp only [fetch_data_handling_multi_values, hfind]
      exact dedup_by_id_aux_sublist _ []
  · intro hcount
    simp only [fetch_data_handling_multi_values, find_multi_value_of_countP_zero hcount]

/-- The C2 witness filter maps and fetch stub. -/
def c2w_filters : List (String × PyVal) :=
  [("assigned_user_id", PyVal.scalar (Scalar.str "u7".data)),
   ("status", PyVal.list [Scalar.str "a".data, Scalar.str "b".data])]

def c2w_single : List (String × PyVal) :=
  [("status", PyVal.scalar (Scalar.str "a".data))]

def c2w_fetch : List (String × PyVal) → QueryResult :=
  fun _ => ⟨1, [[("id", Scalar.str "x".data)]], "Leads", Option.none⟩

/-- C2 witness: a two-value fan-out issues two sub-fetches, merges with
distinct ids, and a list-free filter map delegates to the single fetch. -/
theorem c2_witness :
    (c2w_filters.countP (fun kv => (value_list kv.2).isSome) = 1 ∧
      c2w_single.countP (fun kv => (value_list kv.2).isSome) = 0) ∧
    (sub_fetch_filters c2w_filters "status"
        [Scalar.str "a".data, Scalar.str "b".data]).length = 2 ∧
    (fetch_data_handling_multi_values c2w_fetch "Leads" c2w_filters
        "crm_data_w").records.Pairwise
      (fun a b => lookupKey "id" a ≠ lookupKey "id" b) ∧
    fetch_data_handling_multi_values c2w_fetch "Leads" c2w_single "crm_data_w"
      = c2w_fetch c2w_single := by
  have hcount : c2w_filters.countP (fun kv => (value_list kv.2).isSome) = 1 := by decide
  have h0 : c2w_single.countP (fun kv => (value_list kv.2).isSome) = 0 := by decide
  have hmem : ("status", PyVal.list [Scalar.str "a".data, Scalar.str "b".data])
      ∈ c2w_filters := by decide
  have hval : value_list (PyVal.list [Scalar.str "a".data, Scalar.str "b".data])
      = some [Scalar.str "a".data, Scalar.str "b".data] := rfl
  obtain ⟨hlen, hpw, _⟩ := (c2_fanout c2w_fetch "Leads" "crm_data_w" c2w_filters
    "status" (PyVal.list [Scalar.str "a".data, Scalar.str "b".data])
    [Scalar.str "a".data, Scalar.str "b".data]).1 hcount hmem hval
  exact ⟨⟨hcount, h0⟩, hlen.trans rfl, hpw,
    (c2_fanout c2w_fetch "Leads" "crm_data_w" c2w_single "status"
      (PyVal.scalar Scalar.none) []).2 h0⟩

/-- The C6 counterexample filter map: one multi-valued field. -/
def c6_filters : List (String × PyVal) :=
  [("status", PyVal.list [Scalar.str "a".data, Scalar.str "b".data])]

/-- C6 counterexample: a sum-workflow fetch over a multi-valued filter whose
sub-fetches all match zero records yields `count = 0` and skips the
aggregation pass, yet the fan-out branch writes a cache entry (its
`_cache_data(all_records)` call is unconditional), so the cache store is not
unchanged as the claim states. -/
theorem c6_counterexample :
    (fetch_multi_values_cached (fun _ => []) "Leads" c6_filters [] 0
        "crm_data_z").1.count = 0 ∧
    (execute_sum_workflow
        (fetch_multi_values_cached (fun _ => []) "Leads" c6_filters [] 0
          "crm_data_z").1).summary_totals = Option.none ∧
    (fetch_multi_values_cached (fun _ => []) "Leads" c6_filters [] 0
        "crm_data_z").2 ≠ ([] : Cache) := by
  refine ⟨rfl, rfl, ?_⟩
  exact List.cons_ne_nil _ _

/-- C6 (amended): a zero-record fetch short-circuits every workflow without
an aggregation pass; the sum/count/list responses carry `count = 0` while the
chart response carries no count key at all; the single-query path writes no
cache entry for an empty result, but the fan-out path always writes one (with
an empty record list). -/
theorem c6_zero_records_amended (res : QueryResult) (module : String)
    (h : res.count = 0) (hrec : res.records = []) :
    (execute_sum_workflow res).count = 0 ∧
    (execute_sum_workflow res).summary_totals = Option.none ∧
    (execute_count_workflow res).count = 0 ∧
    (execute_list_workflow res).count = 0 ∧
    (execute_chart_workflow module res).chart_generated = false ∧
    (execute_chart_workflow module res).count = Option.none ∧
    (∀ (cache : Cache) (now : ℚ) (freshId : String),
      query_cache_step res.records cache now freshId = (Option.none, cache)) ∧
    (∀ (cache : Cache) (now : ℚ) (freshId : String),
      (fanout_cache_step res.records cache now freshId).2
        = (freshId, ⟨[], now + CACHE_TTL⟩) :: cache) := by
  simp [execute_sum_workflow, execute_count_workflow, execute_list_workflow,
    execute_chart_workflow, query_cache_step, fanout_cache_step, cache_data, h, hrec]

/-- C6 witness: the amended statement at the concrete empty fetch result. -/
theorem c6_witness :
    (⟨0, [], "Leads", Option.none⟩ : QueryResult).count = 0 ∧
    (execute_sum_workflow ⟨0, [], "Leads", Option.none⟩).summary_totals
      = Option.none ∧
    query_cache_step [] [] 0 "crm_data_q" = (Option.none, []) := by
  have h := c6_zero_records_amended ⟨0, [], "Leads", Option.none⟩ "Leads" rfl rfl
  exact ⟨rfl, h.2.1, h.2.2.2.2.2.2.1 [] 0 "crm_data_q"⟩

/-- The C7 failing state: a valid session-cached token, no context token. -/
def c7_state : AuthState := ⟨Option.none, some "tok-1234567890A", 1000⟩

/-- C7 (code evaluation at the failing input): when the upstream answers 401
while the request is authenticated from the session cache, the handler raises
`NameError` for the unbound global `_system_token_cache` (the typed
`ValueError` line below it is unreachable), the session cache consulted by
`resolve_auth_token` still holds the rejected token, and the next call
returns that same token instead of re-authenticating. -/
theorem c7_code_eval :
    handle_401 c7_state "tok-1234567890A"
      = (PyExc.nameError "_system_token_cache", c7_state) ∧
    (handle_401 c7_state "tok-1234567890A").2.session_token
      = some "tok-1234567890A" ∧
    (resolve_auth_token c7_state 500).1 = Except.ok "tok-1234567890A" := by
  refine ⟨?_, ?_, ?_⟩
  · have hmem : "_system_token_cache" ∉ crm_tools_module_globals := by decide
    simp [handle_401, hmem]
  · have hmem : "_system_token_cache" ∉ crm_tools_module_globals := by decide
    simp [handle_401, hmem, c7_state]
  · simp only [resolve_auth_token, c7_state]
    norm_num

end MCP
